import Mathlib

/-!
Verification of the subscription/trial access-control core of the
LeadEstate agency backend.

The definitions below are a shallow embedding of the JavaScript source:

* `src/src/middleware/subscription.js` — the middleware functions
  `checkSubscriptionStatus`, `requireFeature`, `checkUsageLimit`,
  `addTrialInfo`, together with their hard-coded plan-feature catalog.
* `src/unnamed/part_002` — the `POST /api/auth/trial-signup` route that
  creates the users row for a new trial tenant.
* `src/src/models/SubscriptionPlan.js` — the `Subscription` model helpers
  (`isTrialExpired`, `hasFeature`).

Times are modelled as integer milliseconds since the epoch (`Int`), matching
the JavaScript `Date` comparisons used by the source.  Database reads and
the possibility that a query throws are made explicit as inputs; the users
row that the evaluation may update is threaded through as explicit state.
-/

namespace LeadEstate

/-- One millisecond-count day, the constant `1000 * 60 * 60 * 24` used by the
source for all trial-day arithmetic. -/
def dayMs : Int := 86400000

/-- JavaScript `Math.ceil(a / b)` for a positive divisor `b`, on integers.
The source applies it to `diffTime / (1000 * 60 * 60 * 24)`. -/
def jsCeilDiv (a b : Int) : Int := (a + b - 1).ediv b

/-- Value stored under one key of a plan "features" object.  The JavaScript
objects hold booleans, strings, numbers (the `max_*` entries) and `null`. -/
inductive FeatureValue where
  | boolean (b : Bool)
  | str (s : String)
  | number (n : Int)
  | null
  deriving DecidableEq, Repr

/-- A row of the `users` table, restricted to the columns selected by
`checkSubscriptionStatus`:
`u.id, u.email, u.subscription_status, u.trial_end_date, u.plan_name,
u.agency_id` (the email plays no role in the decision and is omitted).
`trial_end_date` is `none` when the column is NULL. -/
structure UserRow where
  id : Nat
  subscription_status : String
  trial_end_date : Option Int
  plan_name : String
  agency_id : Nat
  deriving DecidableEq, Repr

/-- The structured JSON error body produced by a denial, restricted to the
machine-readable parts: the HTTP status, the `code` field (absent on the
generic 500 responses) and the entries of the optional `data` object.  The
human-readable `message` and the environment-derived `upgradeUrl` carry no
decision content and are omitted. -/
structure Response where
  httpStatus : Nat
  code : Option String := none
  dataStatus : Option String := none
  dataTrialEndDate : Option Int := none
  dataFeature : Option String := none
  dataCurrentPlan : Option String := none
  dataResourceType : Option String := none
  dataCurrentCount : Option Int := none
  dataMaxAllowed : Option Int := none
  deriving DecidableEq, Repr

/-- The `req.subscription` context object attached by
`checkSubscriptionStatus` on the authorized path (lines 119-132 of the
middleware). -/
structure SubscriptionInfo where
  userId : Nat
  agencyId : Nat
  status : String
  planName : String
  features : List (String × FeatureValue)
  maxLeads : Option Int
  maxUsers : Option Int
  maxProperties : Option Int
  trialEndDate : Option Int
  isActive : Bool
  deriving DecidableEq, Repr

/-- Outcome of `checkSubscriptionStatus`: either the middleware calls
`next()` (carrying the attached `req.subscription`, or nothing on an exempt
route), or it writes a response and stops the pipeline. -/
inductive EvalStep where
  | next (sub : Option SubscriptionInfo)
  | respond (r : Response)
  deriving DecidableEq, Repr

/-- The authentication-related inputs of `checkSubscriptionStatus`: no
Authorization header, a token on which `jwt.verify` throws
(`JsonWebTokenError` / `TokenExpiredError`), or a token decoding to a
user id. -/
inductive AuthInput where
  | noHeader
  | badToken
  | token (userId : Nat)
  deriving DecidableEq, Repr

/-- Result of the users-table read: the query throws (a non-authentication
infrastructure error reaching the catch block), or it returns the rows for
the decoded user id (`none` = zero rows). -/
inductive DbRead where
  | failure
  | rows (r : Option UserRow)
  deriving DecidableEq, Repr

/-- The route exemption list of the middleware:
`['/api/auth/', '/api/subscription/upgrade', '/api/subscription/status']`. -/
def skipRoutes : List String :=
  ["/api/auth/", "/api/subscription/upgrade", "/api/subscription/status"]

/-- `skipRoutes.some(route => req.path.startsWith(route))`; the JavaScript
`startsWith` is the character-list prefix test. -/
def isSkipRoute (path : String) : Bool :=
  skipRoutes.any fun r => r.data.isPrefixOf path.data

/-- The hard-coded `planFeatures.starter` object of the middleware. -/
def starterFeatures : List (String × FeatureValue) :=
  [("whatsapp", .boolean false), ("analytics", .str "basic"),
   ("branding", .str "none"), ("api_access", .boolean false),
   ("max_leads", .number 1000), ("max_users", .number 3),
   ("max_properties", .number 100)]

/-- The hard-coded `planFeatures.pro` object of the middleware. -/
def proFeatures : List (String × FeatureValue) :=
  [("whatsapp", .boolean true), ("analytics", .str "advanced"),
   ("branding", .str "basic"), ("api_access", .boolean true),
   ("max_leads", .number 5000), ("max_users", .number 10),
   ("max_properties", .number 500)]

/-- The hard-coded `planFeatures.agency` object of the middleware; its
`max_*` entries are `null` (unlimited). -/
def agencyFeatures : List (String × FeatureValue) :=
  [("whatsapp", .boolean true), ("analytics", .str "enterprise"),
   ("branding", .str "full"), ("api_access", .boolean true),
   ("max_leads", .null), ("max_users", .null), ("max_properties", .null)]

/-- `planFeatures[user.plan_name] || planFeatures.starter`: lookup in the
three-key object, falling back to the starter entry for any other name. -/
def lookupPlanFeatures (planName : String) : List (String × FeatureValue) :=
  if planName = "starter" then starterFeatures
  else if planName = "pro" then proFeatures
  else if planName = "agency" then agencyFeatures
  else starterFeatures

/-- Reading a numeric `max_*` entry off a plan-features object, as the
middleware does with `features.max_leads` etc.: a number is the bound, a
`null` entry (and, vacuously, an absent one) is the unlimited sentinel. -/
def numLimit (features : List (String × FeatureValue)) (key : String) :
    Option Int :=
  match features.lookup key with
  | some (.number n) => some n
  | _ => none

/-- The write performed on the trial-expiry path of the evaluation:
`UPDATE users SET subscription_status = $1 WHERE id = $2` with `$1 =
'expired'` and `$2 = user.id` — keyed on the row id only, with no condition
on the current status. -/
def expireTransition (u : UserRow) : UserRow :=
  { u with subscription_status := "expired" }

/-- Modelled from the spec: the conditional write the spec prescribes for
the trial-expiry transition, "update status to expired where id=X and
status='trial'".  Stated here only to be compared with `expireTransition`,
the write the source actually issues. -/
def conditionalExpireTransition (u : UserRow) : UserRow :=
  if u.subscription_status = "trial" then
    { u with subscription_status := "expired" }
  else u

/-- The tail of `checkSubscriptionStatus` after the trial-expiry check: the
active-status test and, on success, the construction of
`req.subscription`. -/
def afterExpiryCheck (u : UserRow) : EvalStep × DbRead :=
  if ¬(u.subscription_status = "trial" ∨ u.subscription_status = "active") then
    (.respond { httpStatus := 402, code := some "SUBSCRIPTION_INACTIVE",
                dataStatus := some u.subscription_status },
     .rows (some u))
  else
    let features := lookupPlanFeatures u.plan_name
    (.next (some
      { userId := u.id
        agencyId := u.agency_id
        status := u.subscription_status
        planName := u.plan_name
        features := features
        maxLeads := numLimit features "max_leads"
        maxUsers := numLimit features "max_users"
        maxProperties := numLimit features "max_properties"
        trialEndDate := u.trial_end_date
        isActive := decide (u.subscription_status = "trial" ∨
                            u.subscription_status = "active") }),
     .rows (some u))

/-- `checkSubscriptionStatus` from `src/src/middleware/subscription.js`.
Inputs: the request path (for the exemption list), the authentication state,
the users-table read for the decoded user id, and the current time `now`.
Output: the pipeline step taken, paired with the users store after the
evaluation (updated exactly when the trial-expiry write runs). -/
def checkSubscriptionStatus (path : String) (auth : AuthInput) (db : DbRead)
    (now : Int) : EvalStep × DbRead :=
  if isSkipRoute path then (.next none, db)
  else
    match auth with
    | .noHeader => (.respond { httpStatus := 401, code := some "NO_TOKEN" }, db)
    | .badToken =>
        (.respond { httpStatus := 401, code := some "INVALID_TOKEN" }, db)
    | .token _ =>
      match db with
      | .failure => (.respond { httpStatus := 500 }, .failure)
      | .rows none =>
          (.respond { httpStatus := 404, code := some "USER_NOT_FOUND" },
           .rows none)
      | .rows (some u) =>
        match u.trial_end_date with
        | some endDate =>
          if u.subscription_status = "trial" ∧ endDate < now then
            (.respond { httpStatus := 402, code := some "TRIAL_EXPIRED",
                        dataTrialEndDate := some endDate },
             .rows (some (expireTransition u)))
          else afterExpiryCheck u
        | none => afterExpiryCheck u

/-- The feature-resolution test inlined in `requireFeature` (lines 169-170):
`features[featureName] === true ||
(typeof features[featureName] === 'string' && features[featureName] !== 'none')`. -/
def featureAvailable (features : List (String × FeatureValue))
    (name : String) : Bool :=
  match features.lookup name with
  | some (.boolean true) => true
  | some (.str s) => s != "none"
  | _ => false

/-- Modelled from the spec: the feature-resolution rule as the spec words
it — available when the value is `true` or a NON-EMPTY string other than
"none".  Stated only for comparison with `featureAvailable`, the test the
source actually runs. -/
def specFeatureAvailable (features : List (String × FeatureValue))
    (name : String) : Bool :=
  match features.lookup name with
  | some (.boolean true) => true
  | some (.str s) => s != "" && s != "none"
  | _ => false

/-- Outcome of `requireFeature`: proceed, or respond and stop. -/
inductive FeatureStep where
  | next
  | respond (r : Response)
  deriving DecidableEq, Repr

/-- `requireFeature(featureName)` applied to a request carrying
`req.subscription` (or not). -/
def requireFeature (featureName : String) (sub : Option SubscriptionInfo) :
    FeatureStep :=
  match sub with
  | none => .respond { httpStatus := 401, code := some "NO_SUBSCRIPTION_INFO" }
  | some s =>
    if featureAvailable s.features featureName then .next
    else
      .respond { httpStatus := 403, code := some "FEATURE_NOT_AVAILABLE",
                 dataFeature := some featureName,
                 dataCurrentPlan := some s.planName }

/-- The `limits` object attached to `req.subscription`
(`maxLeads` / `maxUsers` / `maxProperties`, each a number or `null`). -/
structure Limits where
  maxLeads : Option Int
  maxUsers : Option Int
  maxProperties : Option Int
  deriving DecidableEq, Repr

/-- Value of `limits[limitKey]` in JavaScript: a number, `null`, or
`undefined` when the key is absent. -/
inductive JsLimit where
  | missing
  | null
  | num (n : Int)
  deriving DecidableEq, Repr

/-- Presenting an optional bound as the JavaScript property value. -/
def JsLimit.ofOption : Option Int → JsLimit
  | none => .null
  | some n => .num n

/-- ``limits[`max${resourceType[0].toUpperCase()}${resourceType.slice(1)}`]``:
the key construction maps exactly "leads" to `maxLeads`, "users" to
`maxUsers` and "properties" to `maxProperties`; any other resource type
misses the three-key object and yields `undefined`.  In the source the same
three strings also key `tableMap`, so `missing` here coincides with the
invalid-resource-type branch. -/
def limitLookup (l : Limits) (resourceType : String) : JsLimit :=
  if resourceType = "leads" then .ofOption l.maxLeads
  else if resourceType = "users" then .ofOption l.maxUsers
  else if resourceType = "properties" then .ofOption l.maxProperties
  else .missing

/-- The `req.usage[resourceType]` object attached on the within-limit
path. -/
structure UsageInfo where
  current : Nat
  maxAllowed : Int
  remaining : Int
  deriving DecidableEq, Repr

/-- Outcome of `checkUsageLimit`: proceed (with the attached usage record,
or nothing when the limit is unlimited), or respond and stop. -/
inductive UsageStep where
  | next (usage : Option UsageInfo)
  | respond (r : Response)
  deriving DecidableEq, Repr

/-- Result of the `SELECT COUNT(*)` usage query: the query throws, or it
returns a (non-negative) count. -/
inductive CountRead where
  | failure
  | ok (n : Nat)
  deriving DecidableEq, Repr

/-- `checkUsageLimit(resourceType)` from the middleware, applied to the
request context (`req.subscription.limits`, or `none` when absent) and the
usage-count read.  The `maxAllowed === null` test runs before the count
query, so an unlimited plan never reaches the store. -/
def checkUsageLimit (resourceType : String) (subLimits : Option Limits)
    (count : CountRead) : UsageStep :=
  match subLimits with
  | none => .respond { httpStatus := 401 }
  | some limits =>
    match limitLookup limits resourceType with
    | .null => .next none
    | .missing => .respond { httpStatus := 400 }
    | .num maxAllowed =>
      match count with
      | .failure => .respond { httpStatus := 500 }
      | .ok currentCount =>
        if maxAllowed ≤ (currentCount : Int) then
          .respond { httpStatus := 403, code := some "USAGE_LIMIT_EXCEEDED",
                     dataResourceType := some resourceType,
                     dataCurrentCount := some (currentCount : Int),
                     dataMaxAllowed := some maxAllowed }
        else
          .next (some { current := currentCount, maxAllowed := maxAllowed,
                        remaining := maxAllowed - (currentCount : Int) })

/-- The `req.trialInfo` object attached by `addTrialInfo`. -/
structure TrialInfo where
  daysRemaining : Int
  endDate : Int
  isExpiringSoon : Bool
  deriving DecidableEq, Repr

/-- `addTrialInfo` from the middleware: on a trial subscription with an end
date it computes `daysRemaining = Math.ceil((endDate - now) / dayMs)`,
clamps the attached value at 0, and flags `isExpiringSoon` from the
unclamped value. -/
def addTrialInfo (sub : Option SubscriptionInfo) (now : Int) :
    Option TrialInfo :=
  match sub with
  | some s =>
    if s.status = "trial" then
      match s.trialEndDate with
      | some endDate =>
        let d := jsCeilDiv (endDate - now) dayMs
        some { daysRemaining := max 0 d, endDate := endDate,
               isExpiringSoon := decide (d ≤ 3) }
      | none => none
    else none
  | none => none

/-- The users row inserted by `POST /api/auth/trial-signup`
(`src/unnamed/part_002`, lines 79-105): status "trial", plan "starter",
trial end date 14 days after creation. -/
def trialSignupUser (userId agencyId : Nat) (now : Int) : UserRow :=
  { id := userId
    subscription_status := "trial"
    trial_end_date := some (now + 14 * dayMs)
    plan_name := "starter"
    agency_id := agencyId }

/-- `Subscription.prototype.isTrialExpired` from the model file: `false`
when not a trial or the end date is NULL, otherwise `now > trial_end_date`. -/
def isTrialExpired (is_trial : Bool) (trial_end_date : Option Int)
    (now : Int) : Bool :=
  match is_trial, trial_end_date with
  | false, _ => false
  | true, none => false
  | true, some e => decide (e < now)

/-- `SubscriptionPlan.prototype.hasFeature` from the model file: only the
boolean `true` counts (string-valued tiers do not). -/
def planHasFeature (features : List (String × FeatureValue))
    (name : String) : Bool :=
  match features.lookup name with
  | some (.boolean true) => true
  | _ => false

/-- The `req.subscription` object the evaluation attaches to a
freshly-created trial tenant. -/
def trialSubInfo (uid aid : Nat) (now : Int) : SubscriptionInfo :=
  { userId := uid
    agencyId := aid
    status := "trial"
    planName := "starter"
    features := starterFeatures
    maxLeads := some 1000
    maxUsers := some 3
    maxProperties := some 100
    trialEndDate := some (now + 14 * dayMs)
    isActive := true }

/-- Claim C2, counterexample: the expiry-path write is not of the
spec-prescribed conditional form.  On a row whose current status is
"active", the write the source issues stomps the status to "expired",
while the conditional write would leave it "active". -/
theorem expire_write_unconditional_cex :
    (expireTransition
      { id := 7, subscription_status := "active", trial_end_date := none,
        plan_name := "pro", agency_id := 3 }).subscription_status =
      "expired" ∧
    (conditionalExpireTransition
      { id := 7, subscription_status := "active", trial_end_date := none,
        plan_name := "pro", agency_id := 3 }).subscription_status =
      "active" ∧
    expireTransition
      { id := 7, subscription_status := "active", trial_end_date := none,
        plan_name := "pro", agency_id := 3 } ≠
    conditionalExpireTransition
      { id := 7, subscription_status := "active", trial_end_date := none,
        plan_name := "pro", agency_id := 3 } := by
  decide

/-- Claim C2, amended: the trial-to-expired write on the expiry path is an
unconditional update keyed only on the row id; it is nonetheless
idempotent — applying it twice is the same as applying it once, and the
resulting status is always "expired". -/
theorem expire_write_idempotent_converges (u : UserRow) :
    expireTransition (expireTransition u) = expireTransition u ∧
    (expireTransition u).subscription_status = "expired" :=
  ⟨rfl, rfl⟩

/-- Claim C3: for the three resource types, a bounded limit `m` is an
exclusive boundary — a current count equal to `m` is denied with code
USAGE_LIMIT_EXCEEDED carrying `currentCount` and `maxAllowed`, while a
count of `m - 1` passes with the usage snapshot attached. -/
theorem usage_limit_boundary_exclusive
    (resourceType : String) (limits : Limits) (m : Int) (n : Nat)
    (hrt : resourceType = "leads" ∨ resourceType = "users" ∨
           resourceType = "properties")
    (hm : limitLookup limits resourceType = .num m) :
    ((n : Int) = m →
      checkUsageLimit resourceType (some limits) (.ok n) =
        .respond { httpStatus := 403, code := some "USAGE_LIMIT_EXCEEDED",
                   dataResourceType := some resourceType,
                   dataCurrentCount := some (n : Int),
                   dataMaxAllowed := some m }) ∧
    ((n : Int) = m - 1 →
      checkUsageLimit resourceType (some limits) (.ok n) =
        .next (some { current := n, maxAllowed := m,
                      remaining := m - (n : Int) })) := by
  constructor
  · intro h
    simp only [checkUsageLimit, hm]
    rw [if_pos (by omega)]
  · intro h
    simp only [checkUsageLimit, hm]
    rw [if_neg (by omega)]

/-- Witness for C3 at the starter lead limit: 1000 of 1000 leads is
denied, 999 of 1000 passes. -/
theorem usage_limit_boundary_exclusive_w :
    checkUsageLimit "leads"
        (some { maxLeads := some 1000, maxUsers := some 3,
                maxProperties := some 100 }) (.ok 1000) =
      .respond { httpStatus := 403, code := some "USAGE_LIMIT_EXCEEDED",
                 dataResourceType := some "leads",
                 dataCurrentCount := some 1000,
                 dataMaxAllowed := some 1000 } ∧
    checkUsageLimit "leads"
        (some { maxLeads := some 1000, maxUsers := some 3,
                maxProperties := some 100 }) (.ok 999) =
      .next (some { current := 999, maxAllowed := 1000, remaining := 1 }) :=
  ⟨(usage_limit_boundary_exclusive "leads"
      { maxLeads := some 1000, maxUsers := some 3, maxProperties := some 100 }
      1000 1000 (Or.inl rfl) (by decide)).1 (by decide),
   (usage_limit_boundary_exclusive "leads"
      { maxLeads := some 1000, maxUsers := some 3, maxProperties := some 100 }
      1000 999 (Or.inl rfl) (by decide)).2 (by decide)⟩

/-- Claim C4: when the resolved limit for the requested resource type is
the unlimited sentinel (`null`), the usage gate always proceeds — for every
outcome of the count read, including a count of any size and even a failing
count query, which is never executed on this path. -/
theorem unlimited_sentinel_always_within
    (resourceType : String) (limits : Limits) (count : CountRead)
    (hm : limitLookup limits resourceType = .null) :
    checkUsageLimit resourceType (some limits) count = .next none := by
  simp only [checkUsageLimit, hm]

/-- Witness for C4 on the agency plan (all limits `null`) with a huge
count. -/
theorem unlimited_sentinel_always_within_w :
    checkUsageLimit "leads"
      (some { maxLeads := none, maxUsers := none, maxProperties := none })
      (.ok 123456789) = .next none :=
  unlimited_sentinel_always_within "leads"
    { maxLeads := none, maxUsers := none, maxProperties := none }
    (.ok 123456789) (by decide)

/-- Claim C5, counterexample: the resolution the source runs treats an
EMPTY string value as an available feature (it only tests
`typeof === 'string'` and `!== 'none'`), while the claim requires a
non-empty string; on such a value `requireFeature` proceeds instead of
denying. -/
theorem feature_empty_string_cex :
    featureAvailable [("branding", FeatureValue.str "")] "branding" = true ∧
    specFeatureAvailable [("branding", FeatureValue.str "")] "branding" =
      false ∧
    requireFeature "branding"
      (some { userId := 1, agencyId := 1, status := "active",
              planName := "custom", trialEndDate := none, isActive := true,
              features := [("branding", FeatureValue.str "")],
              maxLeads := some 1000, maxUsers := some 3,
              maxProperties := some 100 }) = .next := by
  decide

/-- Claim C5, amended: a feature resolves as available exactly when the
plan maps it to the boolean `true` or to any string other than "none" (the
empty string included); a name absent from the feature map resolves as not
available, and `requireFeature` then denies with HTTP 403 and code
FEATURE_NOT_AVAILABLE carrying the feature name and current plan. -/
theorem feature_resolution_closed_world
    (features : List (String × FeatureValue)) (name : String)
    (s : SubscriptionInfo) :
    (featureAvailable features name = true ↔
      features.lookup name = some (.boolean true) ∨
      ∃ v, features.lookup name = some (.str v) ∧ v ≠ "none") ∧
    (features.lookup name = none → featureAvailable features name = false) ∧
    (featureAvailable s.features name = false →
      requireFeature name (some s) =
        .respond { httpStatus := 403, code := some "FEATURE_NOT_AVAILABLE",
                   dataFeature := some name,
                   dataCurrentPlan := some s.planName }) := by
  refine ⟨?_, ?_, ?_⟩
  · cases h : features.lookup name with
    | none => simp [featureAvailable, h]
    | some v =>
      cases v with
      | boolean b => cases b <;> simp [featureAvailable, h]
      | str t => simp [featureAvailable, h, bne_iff_ne]
      | number k => simp [featureAvailable, h]
      | null => simp [featureAvailable, h]
  · intro h
    simp [featureAvailable, h]
  · intro h
    simp [requireFeature, h]

/-- Witness for C5 (amended): on the starter plan, the name
"custom_domain" is absent from the feature map, so it resolves as
unavailable, and the whatsapp gate denies with FEATURE_NOT_AVAILABLE. -/
theorem feature_resolution_closed_world_w :
    featureAvailable starterFeatures "custom_domain" = false ∧
    requireFeature "whatsapp"
      (some { userId := 1, agencyId := 1, status := "trial",
              planName := "starter", trialEndDate := none, isActive := true,
              features := starterFeatures, maxLeads := some 1000,
              maxUsers := some 3, maxProperties := some 100 }) =
      .respond { httpStatus := 403, code := some "FEATURE_NOT_AVAILABLE",
                 dataFeature := some "whatsapp",
                 dataCurrentPlan := some "starter" } :=
  ⟨(feature_resolution_closed_world starterFeatures "custom_domain"
      { userId := 1, agencyId := 1, status := "trial",
        planName := "starter", trialEndDate := none, isActive := true,
        features := starterFeatures, maxLeads := some 1000,
        maxUsers := some 3, maxProperties := some 100 }).2.1 (by decide),
   (feature_resolution_closed_world starterFeatures "whatsapp"
      { userId := 1, agencyId := 1, status := "trial",
        planName := "starter", trialEndDate := none, isActive := true,
        features := starterFeatures, maxLeads := some 1000,
        maxUsers := some 3, maxProperties := some 100 }).2.2 (by decide)⟩

/-- Claim C6, counterexample: evaluating a tenant whose stored status is
"past_due" yields the generic SUBSCRIPTION_INACTIVE denial, not a
PAYMENT_REQUIRED one — the middleware has no dedicated past-due branch. -/
theorem past_due_generic_denial_cex :
    checkSubscriptionStatus "/api/leads" (.token 2)
      (.rows (some { id := 2, subscription_status := "past_due",
                     trial_end_date := none, plan_name := "starter",
                     agency_id := 2 })) 0 =
      (.respond { httpStatus := 402, code := some "SUBSCRIPTION_INACTIVE",
                  dataStatus := some "past_due" },
       .rows (some { id := 2, subscription_status := "past_due",
                     trial_end_date := none, plan_name := "starter",
                     agency_id := 2 })) ∧
    (some "SUBSCRIPTION_INACTIVE" : Option String) ≠
      some "PAYMENT_REQUIRED" := by
  decide

/-- Claim C6, amended: a "past_due" subscription is denied with HTTP 402
and the same generic code SUBSCRIPTION_INACTIVE used for the
expired/cancelled/suspended states; the status is distinguishable only
through the `data.status` field, and the stored row is left unchanged. -/
theorem past_due_denied_subscription_inactive
    (path : String) (uid : Nat) (u : UserRow) (now : Int)
    (hskip : isSkipRoute path = false)
    (hst : u.subscription_status = "past_due") :
    checkSubscriptionStatus path (.token uid) (.rows (some u)) now =
      (.respond { httpStatus := 402, code := some "SUBSCRIPTION_INACTIVE",
                  dataStatus := some "past_due" },
       .rows (some u)) := by
  unfold checkSubscriptionStatus
  rw [hskip]
  simp only [Bool.false_eq_true, if_false]
  cases hend : u.trial_end_date with
  | none => simp [afterExpiryCheck, hst]
  | some e =>
    have hne : ¬(u.subscription_status = "trial" ∧ e < now) := by
      rw [hst]; rintro ⟨h1, -⟩; exact absurd h1 (by decide)
    simp [afterExpiryCheck, hst, hne]

/-- Witness for C6 (amended) on a past-due tenant that still carries a
trial end date. -/
theorem past_due_denied_subscription_inactive_w :
    checkSubscriptionStatus "/api/leads" (.token 9)
      (.rows (some { id := 9, subscription_status := "past_due",
                     trial_end_date := some 5, plan_name := "pro",
                     agency_id := 4 })) 10 =
      (.respond { httpStatus := 402, code := some "SUBSCRIPTION_INACTIVE",
                  dataStatus := some "past_due" },
       .rows (some { id := 9, subscription_status := "past_due",
                     trial_end_date := some 5, plan_name := "pro",
                     agency_id := 4 })) :=
  past_due_denied_subscription_inactive "/api/leads" 9
    { id := 9, subscription_status := "past_due", trial_end_date := some 5,
      plan_name := "pro", agency_id := 4 } 10 (by decide) rfl

/-- Claim C8: when the durable-store read throws (a non-authentication
internal error), both gates fail closed with a 500-class response and never
proceed to the downstream handler — the subscription gate responds 500 and
leaves no authorized context, and the usage gate responds 500 whenever the
count query on a bounded limit throws. -/
theorem fail_closed_on_infrastructure_error
    (path : String) (uid : Nat) (now : Int) (resourceType : String)
    (limits : Limits) (m : Int)
    (hskip : isSkipRoute path = false)
    (hm : limitLookup limits resourceType = .num m) :
    checkSubscriptionStatus path (.token uid) .failure now =
      (.respond { httpStatus := 500 }, .failure) ∧
    (∀ sub store,
      checkSubscriptionStatus path (.token uid) .failure now ≠
        (.next sub, store)) ∧
    checkUsageLimit resourceType (some limits) .failure =
      .respond { httpStatus := 500 } ∧
    (∀ usage,
      checkUsageLimit resourceType (some limits) .failure ≠ .next usage) := by
  have h1 : checkSubscriptionStatus path (.token uid) .failure now =
      (.respond { httpStatus := 500 }, .failure) := by
    unfold checkSubscriptionStatus
    rw [hskip]
    rfl
  have h2 : checkUsageLimit resourceType (some limits) .failure =
      .respond { httpStatus := 500 } := by
    simp only [checkUsageLimit, hm]
  refine ⟨h1, ?_, h2, ?_⟩
  · intro sub store h
    rw [h1] at h
    exact absurd (congrArg Prod.fst h) (by simp)
  · intro usage h
    rw [h2] at h
    exact absurd h (by simp)

/-- Witness for C8 with a failing store on a non-exempt route and a
bounded leads limit. -/
theorem fail_closed_on_infrastructure_error_w :
    checkSubscriptionStatus "/api/leads" (.token 1) .failure 0 =
      (.respond { httpStatus := 500 }, .failure) ∧
    checkUsageLimit "leads"
      (some { maxLeads := some 1000, maxUsers := some 3,
              maxProperties := some 100 }) .failure =
      .respond { httpStatus := 500 } :=
  ⟨(fail_closed_on_infrastructure_error "/api/leads" 1 0 "leads"
      { maxLeads := some 1000, maxUsers := some 3, maxProperties := some 100 }
      1000 (by decide) (by decide)).1,
   (fail_closed_on_infrastructure_error "/api/leads" 1 0 "leads"
      { maxLeads := some 1000, maxUsers := some 3, maxProperties := some 100 }
      1000 (by decide) (by decide)).2.2.1⟩

/-- Claim C1: a trial whose end date lies strictly before `now` is denied
with code TRIAL_EXPIRED on the first evaluation, which persists the status
"expired"; a second evaluation of the stored row (at any later time) is
denied with the code SUBSCRIPTION_INACTIVE instead, because the stored
status is no longer "trial". -/
theorem trial_expiry_lazy_transition
    (path : String) (uid : Nat) (u : UserRow) (e now now2 : Int)
    (hskip : isSkipRoute path = false)
    (hst : u.subscription_status = "trial")
    (hend : u.trial_end_date = some e)
    (hlt : e < now) :
    checkSubscriptionStatus path (.token uid) (.rows (some u)) now =
      (.respond { httpStatus := 402, code := some "TRIAL_EXPIRED",
                  dataTrialEndDate := some e },
       .rows (some (expireTransition u))) ∧
    (expireTransition u).subscription_status = "expired" ∧
    checkSubscriptionStatus path (.token uid)
        (.rows (some (expireTransition u))) now2 =
      (.respond { httpStatus := 402, code := some "SUBSCRIPTION_INACTIVE",
                  dataStatus := some "expired" },
       .rows (some (expireTransition u))) := by
  refine ⟨?_, rfl, ?_⟩
  · unfold checkSubscriptionStatus
    rw [hskip]
    simp [hend, hst, hlt]
  · unfold checkSubscriptionStatus
    rw [hskip]
    simp [hend, afterExpiryCheck, expireTransition]

/-- Witness for C1: a trial that ended at time 0, evaluated at time 1 and
re-evaluated at time 2. -/
theorem trial_expiry_lazy_transition_w :
    checkSubscriptionStatus "/api/leads" (.token 1)
      (.rows (some { id := 1, subscription_status := "trial",
                     trial_end_date := some 0, plan_name := "starter",
                     agency_id := 1 })) 1 =
      (.respond { httpStatus := 402, code := some "TRIAL_EXPIRED",
                  dataTrialEndDate := some 0 },
       .rows (some (expireTransition
         { id := 1, subscription_status := "trial", trial_end_date := some 0,
           plan_name := "starter", agency_id := 1 }))) ∧
    (expireTransition
      { id := 1, subscription_status := "trial", trial_end_date := some 0,
        plan_name := "starter", agency_id := 1 }).subscription_status =
      "expired" ∧
    checkSubscriptionStatus "/api/leads" (.token 1)
      (.rows (some (expireTransition
        { id := 1, subscription_status := "trial", trial_end_date := some 0,
          plan_name := "starter", agency_id := 1 }))) 2 =
      (.respond { httpStatus := 402, code := some "SUBSCRIPTION_INACTIVE",
                  dataStatus := some "expired" },
       .rows (some (expireTransition
         { id := 1, subscription_status := "trial", trial_end_date := some 0,
           plan_name := "starter", agency_id := 1 }))) :=
  trial_expiry_lazy_transition "/api/leads" 1
    { id := 1, subscription_status := "trial", trial_end_date := some 0,
      plan_name := "starter", agency_id := 1 } 0 1 2
    (by decide) rfl rfl (by decide)

/-- Claim C7: a tenant created by trial signup gets status "trial", plan
"starter" and a trial end date exactly 14 days after creation; evaluating
it at the creation instant authorizes it and the attached trial info shows
14 days remaining. -/
theorem trial_signup_fourteen_days
    (path : String) (uid aid : Nat) (now : Int)
    (hskip : isSkipRoute path = false) :
    (trialSignupUser uid aid now).subscription_status = "trial" ∧
    (trialSignupUser uid aid now).trial_end_date =
      some (now + 14 * dayMs) ∧
    (trialSignupUser uid aid now).plan_name = "starter" ∧
    checkSubscriptionStatus path (.token uid)
        (.rows (some (trialSignupUser uid aid now))) now =
      (.next (some (trialSubInfo uid aid now)),
       .rows (some (trialSignupUser uid aid now))) ∧
    addTrialInfo (some (trialSubInfo uid aid now)) now =
      some { daysRemaining := 14, endDate := now + 14 * dayMs,
             isExpiringSoon := false } := by
  have hpos : (0 : Int) < 14 * dayMs := by decide
  have harith : ¬(now + 14 * dayMs < now) := by omega
  have hceil : jsCeilDiv (14 * dayMs) dayMs = 14 := by decide
  have harith2 : now + 14 * dayMs - now = 14 * dayMs := by ring
  have hmax : max (0 : Int) 14 = 14 := by decide
  have hexp : decide ((14 : Int) ≤ 3) = false := by decide
  refine ⟨rfl, rfl, rfl, ?_, ?_⟩
  · unfold checkSubscriptionStatus
    rw [hskip]
    simp [trialSignupUser, harith, afterExpiryCheck, trialSubInfo,
      lookupPlanFeatures, numLimit, starterFeatures]
    decide
  · simp [addTrialInfo, trialSubInfo, harith2, hceil, hmax, hexp]

/-- Witness for C7 at creation time 0. -/
theorem trial_signup_fourteen_days_w :
    (trialSignupUser 1 2 0).subscription_status = "trial" ∧
    (trialSignupUser 1 2 0).trial_end_date = some (0 + 14 * dayMs) ∧
    (trialSignupUser 1 2 0).plan_name = "starter" ∧
    checkSubscriptionStatus "/api/leads" (.token 1)
        (.rows (some (trialSignupUser 1 2 0))) 0 =
      (.next (some (trialSubInfo 1 2 0)),
       .rows (some (trialSignupUser 1 2 0))) ∧
    addTrialInfo (some (trialSubInfo 1 2 0)) 0 =
      some { daysRemaining := 14, endDate := 0 + 14 * dayMs,
             isExpiringSoon := false } :=
  trial_signup_fourteen_days "/api/leads" 1 2 0 (by decide)

/-- Claim C9: a stored plan name outside the known identifiers resolves to
the starter catalog entry, so an authorized evaluation of such a user
attaches the starter features and limits — a well-defined, non-empty
entitlement set — rather than failing or granting nothing. -/
theorem unknown_plan_defaults_to_starter
    (path : String) (uid : Nat) (u : UserRow) (now : Int)
    (hskip : isSkipRoute path = false)
    (hplan : u.plan_name ≠ "starter" ∧ u.plan_name ≠ "pro" ∧
             u.plan_name ≠ "agency")
    (hactive : u.subscription_status = "trial" ∨
               u.subscription_status = "active")
    (hnoexp : ∀ e, u.trial_end_date = some e → ¬e < now) :
    lookupPlanFeatures u.plan_name = starterFeatures ∧
    checkSubscriptionStatus path (.token uid) (.rows (some u)) now =
      (.next (some
        { userId := u.id, agencyId := u.agency_id,
          status := u.subscription_status, planName := u.plan_name,
          features := starterFeatures, maxLeads := some 1000,
          maxUsers := some 3, maxProperties := some 100,
          trialEndDate := u.trial_end_date, isActive := true }),
       .rows (some u)) ∧
    starterFeatures ≠ [] := by
  have hlp : lookupPlanFeatures u.plan_name = starterFeatures := by
    unfold lookupPlanFeatures
    rw [if_neg hplan.1, if_neg hplan.2.1, if_neg hplan.2.2]
  refine ⟨hlp, ?_, by decide⟩
  unfold checkSubscriptionStatus
  rw [hskip]
  cases hend : u.trial_end_date with
  | none =>
    simp [hend, afterExpiryCheck, hlp, hactive, numLimit, starterFeatures,
      List.lookup]
  | some e =>
    have hne : ¬(u.subscription_status = "trial" ∧ e < now) := by
      rintro ⟨-, h2⟩
      exact hnoexp e hend h2
    simp [hend, hne, afterExpiryCheck, hlp, hactive, numLimit,
      starterFeatures, List.lookup]

/-- Witness for C9: an active user on an unknown plan name gets starter
entitlements. -/
theorem unknown_plan_defaults_to_starter_w :
    lookupPlanFeatures "gold" = starterFeatures ∧
    checkSubscriptionStatus "/api/leads" (.token 5)
      (.rows (some { id := 5, subscription_status := "active",
                     trial_end_date := none, plan_name := "gold",
                     agency_id := 6 })) 0 =
      (.next (some
        { userId := 5, agencyId := 6, status := "active",
          planName := "gold", features := starterFeatures,
          maxLeads := some 1000, maxUsers := some 3,
          maxProperties := some 100, trialEndDate := none,
          isActive := true }),
       .rows (some { id := 5, subscription_status := "active",
                     trial_end_date := none, plan_name := "gold",
                     agency_id := 6 })) ∧
    starterFeatures ≠ [] :=
  unknown_plan_defaults_to_starter "/api/leads" 5
    { id := 5, subscription_status := "active", trial_end_date := none,
      plan_name := "gold", agency_id := 6 } 0
    (by decide) (by decide) (Or.inr rfl) (by simp)

/-- Claim C10: a trial subscription with no stored trial end date is
authorized at every evaluation time — the expiry comparison and the
expired-status write are both skipped, the stored row is returned
unchanged — and the model helper `isTrialExpired` likewise reports such a
trial as not expired. -/
theorem trial_without_end_date_authorized
    (path : String) (uid : Nat) (u : UserRow) (now : Int)
    (hskip : isSkipRoute path = false)
    (hst : u.subscription_status = "trial")
    (hend : u.trial_end_date = none) :
    checkSubscriptionStatus path (.token uid) (.rows (some u)) now =
      (.next (some
        { userId := u.id, agencyId := u.agency_id, status := "trial",
          planName := u.plan_name,
          features := lookupPlanFeatures u.plan_name,
          maxLeads := numLimit (lookupPlanFeatures u.plan_name) "max_leads",
          maxUsers := numLimit (lookupPlanFeatures u.plan_name) "max_users",
          maxProperties :=
            numLimit (lookupPlanFeatures u.plan_name) "max_properties",
          trialEndDate := none, isActive := true }),
       .rows (some u)) ∧
    isTrialExpired true none now = false := by
  refine ⟨?_, rfl⟩
  unfold checkSubscriptionStatus
  rw [hskip]
  simp [hend, afterExpiryCheck, hst]

/-- Witness for C10: a null-end-date trial evaluated far in the future
(time 10^15 ms) is still authorized and unchanged. -/
theorem trial_without_end_date_authorized_w :
    checkSubscriptionStatus "/api/leads" (.token 3)
      (.rows (some { id := 3, subscription_status := "trial",
                     trial_end_date := none, plan_name := "starter",
                     agency_id := 3 })) 1000000000000000 =
      (.next (some
        { userId := 3, agencyId := 3, status := "trial",
          planName := "starter", features := lookupPlanFeatures "starter",
          maxLeads := numLimit (lookupPlanFeatures "starter") "max_leads",
          maxUsers := numLimit (lookupPlanFeatures "starter") "max_users",
          maxProperties :=
            numLimit (lookupPlanFeatures "starter") "max_properties",
          trialEndDate := none, isActive := true }),
       .rows (some { id := 3, subscription_status := "trial",
                     trial_end_date := none, plan_name := "starter",
                     agency_id := 3 })) ∧
    isTrialExpired true none 1000000000000000 = false :=
  trial_without_end_date_authorized "/api/leads" 3
    { id := 3, subscription_status := "trial", trial_end_date := none,
      plan_name := "starter", agency_id := 3 } 1000000000000000
    (by decide) rfl rfl

end LeadEstate
